import Mathlib

/-
  Verification of the haystack collection module (src/haystack/__init__.py),
  a Python 2 module (the file uses integer `/` division, `infh.next()` and
  `#!/usr/bin/python`).

  Modelling conventions for the shallow embedding:
  * Python 2 byte strings are modelled as `List Char` (`PyStr`).  Python string
    comparison is codepoint-lexicographic (`pyStrLt`), `tok.startswith(p)` is
    `p.isPrefixOf tok`, `key.split(sep)` is `pySplit sep key`, `key[i:]` is
    `List.drop i key`, and `str(n)` is `Nat.toDigits 10 n`.
  * Python exceptions are modelled with `Except PyError`.  A mutating method is
    a function returning the post state paired with `Option PyError`; on an
    exception the returned state reflects exactly the mutations the method
    performed before the raise.  A read-only method returns `Except PyError r`.
  * Every Python int that arises in the translated code paths is nonnegative,
    so indices and bounds are modelled as `Nat`, and Python 2 floor division
    `/` on them is `Nat` division.  The single value that can reach -1 in the
    source, `h = mid - 1` in `SuffixArrayMap.get` when `mid = 0`, is only ever
    used in the test `low < h` with `low ≥ 0`, which is False both for -1 and
    for the truncated `Nat` value 0, so truncation at 0 is behaviour-preserving.
-/

/-- Python 2 byte string. -/
abbrev PyStr := List Char

/-- Python exceptions that the translated code can raise. -/
inductive PyError : Type where
  | typeError
  | attributeError
  | indexError
  deriving DecidableEq

/-- Python 2 lexicographic comparison `s < t` on byte strings: compare
codepoint by codepoint, a strict proper initial segment is smaller. -/
def pyStrLt : PyStr → PyStr → Bool
  | [], [] => false
  | [], _ :: _ => true
  | _ :: _, [] => false
  | a :: s, b :: t => if a < b then true else if b < a then false else pyStrLt s t

/-- Python `key.split(sep)` with an explicit one-character separator: keeps
empty fragments, `"".split(sep) == [""]`. -/
def pySplit (sep : Char) : PyStr → List PyStr
  | [] => [[]]
  | c :: rest =>
    let r := pySplit sep rest
    if c = sep then [] :: r
    else
      match r with
      | [] => [[c]]
      | g :: gs => (c :: g) :: gs

/-- Python `xs[i]` for a nonnegative index: raises IndexError when out of
range.  (All indices reached in the translated code are nonnegative, so the
negative-index wrap-around of Python never fires.) -/
def pyIndex {α : Type} (xs : List α) (i : Nat) : Except PyError α :=
  match xs[i]? with
  | some a => .ok a
  | none => .error .indexError

/-- Python slice `xs[a:b]` for nonnegative bounds: clamps, never raises. -/
def pySlice {α : Type} (xs : List α) (a b : Nat) : List α :=
  (xs.take b).drop a

/-- Python `xs.insert(i, x)` for a nonnegative position (clamped to the end,
as in Python). -/
def listInsertAt {α : Type} (xs : List α) (i : Nat) (x : α) : List α :=
  xs.take i ++ x :: xs.drop i

/-- Source lines 33-39: `SuffixArrayNode(item_id, token, key_offset)`; the
`token` is the key suffix used for all comparisons. -/
structure SuffixArrayNode : Type where
  item_id : Nat
  key_offset : Nat
  token : PyStr
  deriving DecidableEq

/-- Source lines 41-42: the method `cmp` of `SuffixArrayNode`, i.e.
`op(self.token, other.token)`.  This method itself is well defined, but it is
never reached: see `SuffixArrayNode.lt`. -/
def SuffixArrayNode.cmp (self other : SuffixArrayNode) (op : PyStr → PyStr → Bool) : Bool :=
  op self.token other.token

/-- Source lines 43-44: `__lt__` evaluates `cmp(self, other, operator.lt)`.
Inside the method body the bare name `cmp` does not resolve to the method
`SuffixArrayNode.cmp` (Python methods are not in scope as bare names), but to
the two-argument Python 2 builtin `cmp`; calling it with three arguments
raises `TypeError: cmp() takes exactly 2 arguments (3 given)` before any
comparison of tokens happens.  `__le__`, `__eq__`, `__ge__`, `__gt__` (lines
45-52) fail identically; `bisect.insort_left` only invokes `__lt__`. -/
def SuffixArrayNode.lt (_self _other : SuffixArrayNode) : Except PyError Bool :=
  .error .typeError

/-- Source lines 53-54: `node.startswith(p)` is `self.token.startswith(p)`. -/
def SuffixArrayNode.startswith (self : SuffixArrayNode) (p : PyStr) : Bool :=
  p.isPrefixOf self.token

/-- The binary-search loop of CPython `bisect.insort_left` (`lo = 0`,
`hi = len(a)`; while `lo < hi`: `mid = (lo+hi)//2`; `if a[mid] < x: lo = mid+1
else: hi = mid`).  The element comparison is `SuffixArrayNode.__lt__`, which
raises, so the loop faults on its first comparison whenever it iterates. -/
def insortLoop (a : List SuffixArrayNode) (x : SuffixArrayNode) (lo hi : Nat) :
    Except PyError Nat :=
  if _h : lo < hi then
    let mid := (lo + hi) / 2
    match a[mid]? with
    | none => .error .indexError
    | some node =>
      match node.lt x with
      | .error e => .error e
      | .ok true => insortLoop a x (mid + 1) hi
      | .ok false => insortLoop a x lo mid
  else .ok lo
termination_by hi - lo
decreasing_by
  all_goals omega

/-- `bisect.insort_left(a, x)`: find the insertion point, then insert.  An
exception raised by a comparison propagates before the list is modified. -/
def insort_left (a : List SuffixArrayNode) (x : SuffixArrayNode) :
    Except PyError (List SuffixArrayNode) :=
  match insortLoop a x 0 a.length with
  | .error e => .error e
  | .ok lo => .ok (listInsertAt a lo x)

/-- Source lines 56-60: `SuffixArrayMap` owns the item arena `items`, the key
arena `keys` and the sorted suffix index `index`. -/
structure SuffixArrayMap (α : Type) : Type where
  items : List α
  keys : List PyStr
  index : List SuffixArrayNode
  deriving DecidableEq

/-- Source lines 57-60: `SuffixArrayMap.__init__`. -/
def SuffixArrayMap.empty (α : Type) : SuffixArrayMap α := ⟨[], [], []⟩

/-- The suffix loop of `SuffixArrayMap.insert` (source lines 66-70): for each
start offset `i`, build `suffix = key[i:] + "$" + str(item_id)` and
`insort_left` the node into the index.  The first argument list is
`range(len(key))`.  If an `insort_left` raises, the loop stops with the index
in its partially updated state and the exception propagates. -/
def suffixInsortAll (item_id : Nat) (key : PyStr) :
    List SuffixArrayNode → List Nat → List SuffixArrayNode × Option PyError
  | idx, [] => (idx, none)
  | idx, i :: rest =>
    let suffix := key.drop i ++ '$' :: Nat.toDigits 10 item_id
    match insort_left idx ⟨item_id, i, suffix⟩ with
    | .ok idx2 => suffixInsortAll item_id key idx2 rest
    | .error e => (idx, some e)

/-- Source lines 62-70: `SuffixArrayMap.insert(key, item)`.  `item` and `key`
are appended to the arenas first; the suffix loop then runs and may raise,
leaving the arenas already extended.  The method has no return statement. -/
def SuffixArrayMap.insert {α : Type} (s : SuffixArrayMap α) (key : PyStr) (item : α) :
    SuffixArrayMap α × Option PyError :=
  let item_id := s.items.length
  let p := suffixInsortAll item_id key s.index (List.range key.length)
  (⟨s.items ++ [item], s.keys ++ [key], p.1⟩, p.2)

/-- Duck-typed operations that `SuffixArrayMap.get` applies to stored ITEMS
(not index nodes) because of the `self.items`/`self.index` confusion in the
source: `self.items[mid].startswith(prefix)` and `prefix > self.items[m]`.
What these do depends on the runtime type of the stored items, so the
embedding of `get` is parameterised by them. -/
structure PyItemOps (α : Type) : Type where
  startswith : α → PyStr → Except PyError Bool
  gtStr : PyStr → α → Except PyError Bool

/-- Items that are Python 2 `int`s: `int` objects have no attribute
`startswith` (AttributeError), and `some_str > some_int` is True in Python 2
because numbers sort before every other type in cross-type comparisons. -/
def intItemOps : PyItemOps Nat :=
  ⟨fun _ _ => .error .attributeError, fun _ _ => .ok true⟩

/-- First `while` loop of `SuffixArrayMap.get` (source lines 79-87): while
`low < high`, probe `node = self.index[mid]`; `break` on a token that starts
with the pattern, otherwise move `low` or `high`.  The untranslated remaining
case `node.token == prefix` with `not node.startswith(prefix)` is impossible
for strings (equal strings satisfy `startswith`), so the final branch is the
`node.token > prefix` branch `high = mid`. -/
def sufSearch (index : List SuffixArrayNode) (pat : PyStr) (low high : Nat) :
    Except PyError (Nat × Nat) :=
  if _h : low < high then
    let mid := (high + low) / 2
    match pyIndex index mid with
    | .error e => .error e
    | .ok node =>
      if node.startswith pat then .ok (low, high)
      else if pyStrLt node.token pat then sufSearch index pat (mid + 1) high
      else sufSearch index pat low mid
  else .ok (low, high)
termination_by high - low
decreasing_by
  all_goals omega

/-- Second `while` loop of `SuffixArrayMap.get` (source lines 90-96): refine
`low` downwards using `node = self.items[m]` and `prefix > node`.  Returns the
final `low` (the final `h` is dead after the loop). -/
def sufLower {α : Type} (items : List α) (ops : PyItemOps α) (pat : PyStr) (low h : Nat) :
    Except PyError Nat :=
  if _hy : low < h then
    let m := (h + low) / 2
    match pyIndex items m with
    | .error e => .error e
    | .ok node =>
      match ops.gtStr pat node with
      | .error e => .error e
      | .ok true => sufLower items ops pat (m + 1) h
      | .ok false => sufLower items ops pat low m
  else .ok low
termination_by h - low
decreasing_by
  all_goals omega

/-- Third `while` loop of `SuffixArrayMap.get` (source lines 100-105): push
`l` upwards while `self.items[m].startswith(prefix)`, else `high = m - 1`.
Returns the final `high` (the final `l` is dead after the loop). -/
def sufUpper {α : Type} (items : List α) (ops : PyItemOps α) (pat : PyStr) (l high : Nat) :
    Except PyError Nat :=
  if _hy : l < high then
    let m := (l + high + 1) / 2
    match pyIndex items m with
    | .error e => .error e
    | .ok node =>
      match ops.startswith node pat with
      | .error e => .error e
      | .ok true => sufUpper items ops pat m high
      | .ok false => sufUpper items ops pat l (m - 1)
  else .ok high
termination_by high - l
decreasing_by
  all_goals omega

/-- Source lines 72-112: `SuffixArrayMap.get(prefix)`.  `low = 0`,
`high = len(self.index) - 1`; `if high <= low: return None` (so any index of
length 0 or 1 returns `None` immediately — with length 0 the Python `high` is
-1 and the `Nat` truncation to 0 leaves the test `high <= 0` True either
way).  Afterwards the source probes `self.items` (not `self.index`!) at the
computed positions, so the behaviour depends on the runtime type of the items
(`ops`) and can raise IndexError when `mid` exceeds `len(self.items)`.
Returns `none` for Python `None` and `some list` for a returned slice. -/
def SuffixArrayMap.get {α : Type} (ops : PyItemOps α) (s : SuffixArrayMap α) (pat : PyStr) :
    Except PyError (Option (List α)) :=
  let low : Nat := 0
  let high : Nat := s.index.length - 1
  if high ≤ low then .ok none
  else
    match sufSearch s.index pat low high with
    | .error e => .error e
    | .ok lh =>
      let mid := (lh.2 + lh.1) / 2
      match pyIndex s.items mid with
      | .error e => .error e
      | .ok it =>
        match ops.startswith it pat with
        | .error e => .error e
        | .ok false => .ok none
        | .ok true =>
          match sufLower s.items ops pat lh.1 (mid - 1) with
          | .error e => .error e
          | .ok low2 =>
            match pyIndex s.items low2 with
            | .error e => .error e
            | .ok itl =>
              match ops.startswith itl pat with
              | .error e => .error e
              | .ok bl =>
                let low3 := if bl then low2 else mid
                match sufUpper s.items ops pat (mid + 1) lh.2 with
                | .error e => .error e
                | .ok high2 =>
                  match pyIndex s.items high2 with
                  | .error e => .error e
                  | .ok ith =>
                    match ops.startswith ith pat with
                    | .error e => .error e
                    | .ok bh =>
                      let high3 := if bh then high2 else mid
                      .ok (some (pySlice s.items low3 (high3 + 1)))

/-- State-passing view of `SuffixArrayMap.get`: the method body assigns only
the local variables `low`, `high`, `mid`, `node`, `h`, `l`, `m`, performs no
attribute assignment on `self` and no in-place list mutation (slicing copies),
so the post state is the pre state. -/
def SuffixArrayMap.getS {α : Type} (ops : PyItemOps α) (s : SuffixArrayMap α) (pat : PyStr) :
    Except PyError (Option (List α)) × SuffixArrayMap α :=
  (SuffixArrayMap.get ops s pat, s)

/-- A history of `SuffixArrayMap.insert` calls applied to a fresh map, in
order.  A call that raises leaves its partial mutations in place (as in
Python, where the caller can catch the exception and continue using the
container), which is what `insert` already returns. -/
def suffixRun (α : Type) (hist : List (PyStr × α)) : SuffixArrayMap α :=
  hist.foldl (fun s kv => (s.insert kv.1 kv.2).1) (SuffixArrayMap.empty α)

/-- Source lines 114-125: `RadixTreeNode`.  The constructor ignores its
`item_id` argument and always stores `None`; `children` is a dict from token
to child node, modelled as an association list. -/
inductive RadixTreeNode : Type where
  | node (token : PyStr) (item_id : Option Nat) (children : List (PyStr × RadixTreeNode))

def RadixTreeNode.token : RadixTreeNode → PyStr
  | .node t _ _ => t

def RadixTreeNode.item_id : RadixTreeNode → Option Nat
  | .node _ i _ => i

def RadixTreeNode.children : RadixTreeNode → List (PyStr × RadixTreeNode)
  | .node _ _ c => c

/-- Source lines 127-132: `RadixTreeMap` owns the arenas and the root node
`index = RadixTreeNode('')`. -/
structure RadixTreeMap (α : Type) : Type where
  items : List α
  keys : List PyStr
  index : RadixTreeNode

def RadixTreeMap.empty (α : Type) : RadixTreeMap α := ⟨[], [], .node [] none []⟩

/-- Source lines 133-156: `RadixTreeMap.insert(key, item)`.  The very first
statement of the loop header evaluates `key.split('/').enumerate()`; Python
lists have no method `enumerate` (the builtin is the free function
`enumerate(...)`), so an AttributeError is raised while evaluating the
iterator expression, before the loop body runs and before any attribute of
`self` is touched.  The method therefore always raises and never mutates the
map.  (Were that line repaired, the body has further faults: `current` is
never advanced to the found child, so every token would be attached directly
to the root; the overwrite test `if node.item_id:` is False for `item_id`
0; and there is no return statement.) -/
def RadixTreeMap.insert {α : Type} (s : RadixTreeMap α) (_key : PyStr) (_item : α) :
    RadixTreeMap α × Option PyError :=
  (s, some .attributeError)

/-- The token walk of `RadixTreeMap.get` (source lines 161-167): for each
token, if it labels a child of the current node, set `best_match` to the
CURRENT node (the parent — before testing whether it stores anything) and
descend; otherwise break.  Returns the final `best_match`. -/
def radixWalk : List PyStr → RadixTreeNode → Option RadixTreeNode → Option RadixTreeNode
  | [], _, best => best
  | t :: rest, nd, best =>
    match nd.children.lookup t with
    | some child => radixWalk rest child (some nd)
    | none => best

/-- Source lines 158-171: `RadixTreeMap.get(prefix)`.  After the walk,
`return None` if `best_match is None`, else `return
self.items[best_match.item_id]` — when `best_match.item_id` is `None` this is
`self.items[None]`, which raises `TypeError: list indices must be integers`.
Returns `none` for Python `None`, `some item` otherwise. -/
def RadixTreeMap.get {α : Type} (s : RadixTreeMap α) (query : PyStr) :
    Except PyError (Option α) :=
  match radixWalk (pySplit '/' query) s.index none with
  | none => .ok none
  | some best =>
    match best.item_id with
    | none => .error .typeError
    | some i =>
      match pyIndex s.items i with
      | .error e => .error e
      | .ok it => .ok (some it)

/-- State-passing view of `RadixTreeMap.get`: the method body assigns only the
local variables `node`, `best_match`, `token` and never writes to `self`, so
the post state is the pre state. -/
def RadixTreeMap.getS {α : Type} (s : RadixTreeMap α) (query : PyStr) :
    Except PyError (Option α) × RadixTreeMap α :=
  (RadixTreeMap.get s query, s)

/-- A history of `RadixTreeMap.insert` calls applied to a fresh map. -/
def radixRun (α : Type) (hist : List (PyStr × α)) : RadixTreeMap α :=
  hist.foldl (fun s kv => (s.insert kv.1 kv.2).1) (RadixTreeMap.empty α)

/-! ### Helper lemmas -/

/-- Inserting into an empty index succeeds and yields the singleton list:
`insortLoop` performs no comparison when `lo = hi = 0`. -/
theorem insort_left_nil (x : SuffixArrayNode) : insort_left [] x = .ok [x] := by
  simp [insort_left, insortLoop, listInsertAt]

/-- Inserting into a nonempty index always raises: the first bisection step
compares `a[mid] < x` via the broken `__lt__`, which raises TypeError. -/
theorem insort_left_cons (a : SuffixArrayNode) (l : List SuffixArrayNode)
    (x : SuffixArrayNode) : insort_left (a :: l) x = .error .typeError := by
  obtain ⟨nd, hnd⟩ : ∃ nd, (a :: l)[(l.length + 1) / 2]? = some nd :=
    ⟨_, List.getElem?_eq_getElem (by simp only [List.length_cons]; omega)⟩
  simp [insort_left, insortLoop, SuffixArrayNode.lt, hnd]

/-- The suffix-insertion loop never grows the index beyond one entry: the
first insertion into an empty index succeeds, every later one raises. -/
theorem suffixInsortAll_len_le_one (item_id : Nat) (key : PyStr) :
    ∀ (offs : List Nat) (idx : List SuffixArrayNode),
      idx.length ≤ 1 → (suffixInsortAll item_id key idx offs).1.length ≤ 1 := by
  intro offs
  induction offs with
  | nil => intro idx h; simpa [suffixInsortAll] using h
  | cons i rest ih =>
    intro idx h
    match idx with
    | [] =>
      simp only [suffixInsortAll, insort_left_nil]
      exact ih _ (by simp)
    | a :: l =>
      simpa [suffixInsortAll, insort_left_cons] using h

/-- `SuffixArrayMap.insert` cannot grow the index beyond one entry. -/
theorem insert_index_len_le_one {α : Type} (s : SuffixArrayMap α) (key : PyStr)
    (item : α) (h : s.index.length ≤ 1) :
    ((s.insert key item).1).index.length ≤ 1 := by
  simpa [SuffixArrayMap.insert] using
    suffixInsortAll_len_le_one s.items.length key (List.range key.length) s.index h

/-- In every state reachable by a sequence of `insert` calls the suffix index
holds at most one entry: the first suffix of the first nonempty key is placed
into the empty index, and every subsequent `insort_left` raises TypeError
before inserting. -/
theorem suffixRun_index_len_le_one (α : Type) (hist : List (PyStr × α)) :
    (suffixRun α hist).index.length ≤ 1 := by
  have main : ∀ (l : List (PyStr × α)) (s : SuffixArrayMap α), s.index.length ≤ 1 →
      (l.foldl (fun t kv => (t.insert kv.1 kv.2).1) s).index.length ≤ 1 := by
    intro l
    induction l with
    | nil => intro s h; simpa using h
    | cons kv rest ih =>
      intro s h
      simpa [List.foldl] using ih _ (insert_index_len_le_one s kv.1 kv.2 h)
  simpa [suffixRun] using main hist (SuffixArrayMap.empty α) (by simp [SuffixArrayMap.empty])

/-- A list with at most one element is vacuously pairwise related. -/
theorem pairwise_of_len_le_one {β : Type} {R : β → β → Prop} :
    ∀ p : List β, p.length ≤ 1 → p.Pairwise R := by
  intro p h
  match p with
  | [] => exact List.Pairwise.nil
  | [a] => simp
  | a :: b :: t => simp at h

/-- The early return of `SuffixArrayMap.get`: with `low = 0` and
`high = len(self.index) - 1`, an index of length at most one makes
`high <= low` True, so `get` returns Python `None` without touching the rest
of the method. -/
theorem get_eq_none_of_index_len_le_one {α : Type} (ops : PyItemOps α)
    (s : SuffixArrayMap α) (pat : PyStr) (h : s.index.length ≤ 1) :
    SuffixArrayMap.get ops s pat = .ok none := by
  have h0 : s.index.length - 1 ≤ 0 := by omega
  simp [SuffixArrayMap.get, h0]

/-- Walking from a node with no children never finds a child, so `best_match`
keeps its initial value `None`. -/
theorem radixWalk_no_children (ts : List PyStr) (tk : PyStr) (oid : Option Nat) :
    radixWalk ts (.node tk oid []) none = none := by
  cases ts <;> simp [radixWalk, RadixTreeNode.children, List.lookup]

/-- `RadixTreeMap.get` on the fresh map returns Python `None` for every
query: the root has no children. -/
theorem radix_empty_get (α : Type) (q : PyStr) :
    (RadixTreeMap.empty α).get q = .ok none := by
  simp [RadixTreeMap.get, RadixTreeMap.empty, radixWalk_no_children]

/-- Every sequence of `RadixTreeMap.insert` calls leaves the map in its
initial state, because `insert` raises AttributeError before mutating. -/
theorem radixRun_eq_empty (α : Type) (hist : List (PyStr × α)) :
    radixRun α hist = RadixTreeMap.empty α := by
  have main : ∀ (l : List (PyStr × α)) (s : RadixTreeMap α),
      l.foldl (fun t kv => (t.insert kv.1 kv.2).1) s = s := by
    intro l
    induction l with
    | nil => intro s; rfl
    | cons kv rest ih => intro s; exact ih s
  simpa [radixRun] using main hist (RadixTreeMap.empty α)

/-- Inserting a key with at least two suffixes into a map with an empty index
raises TypeError: the first suffix enters the empty index, the second one
triggers a node comparison. -/
theorem insert_two_suffixes_err {α : Type} (s : SuffixArrayMap α) (key : PyStr)
    (item : α) (hidx : s.index = []) (i j : Nat) (rest : List Nat)
    (hr : List.range key.length = i :: j :: rest) :
    (s.insert key item).2 = some PyError.typeError := by
  simp [SuffixArrayMap.insert, hidx, hr, suffixInsortAll, insort_left_nil, insort_left_cons]

/-- Inserting any nonempty key into a map whose index is already nonempty
raises TypeError on the very first suffix. -/
theorem insert_err_of_index_nonempty {α : Type} (s : SuffixArrayMap α) (key : PyStr)
    (item : α) (a : SuffixArrayNode) (l : List SuffixArrayNode)
    (hidx : s.index = a :: l) (hk : 1 ≤ key.length) :
    (s.insert key item).2 = some PyError.typeError := by
  obtain ⟨i, rest, hr⟩ : ∃ i rest, List.range key.length = i :: rest := by
    cases hrange : List.range key.length with
    | nil =>
      exfalso
      have := List.range_eq_nil.mp hrange
      omega
    | cons i rest => exact ⟨i, rest, rfl⟩
  simp [SuffixArrayMap.insert, hidx, hr, suffixInsortAll, insort_left_cons]

/-- After the one successful insertion of the single-character key `"c"` into
a fresh map, the index holds exactly one node. -/
theorem suffixRun_single_c : ∃ nd, (suffixRun Nat [("c".data, 1)]).index = [nd] := by
  refine ⟨⟨0, 0, "c$0".data⟩, ?_⟩
  have hr : List.range "c".data.length = [0] := rfl
  simp only [suffixRun, List.foldl, SuffixArrayMap.insert, SuffixArrayMap.empty, hr,
    suffixInsortAll, insort_left_nil]
  decide

/-! ### The claims -/

/-- C1: the claim says that `RadixTreeMap.get(query)` returns the item of the
deepest previously inserted key that is a prefix of the query, and in
particular that `get(k)` returns the value inserted for `k`.  The code
refutes it: `insert` always raises AttributeError (`key.split('/')` is a
Python list and has no method `enumerate`), so nothing is ever stored and
`get` on the resulting (unchanged, empty) map returns `None` — here,
inserting `"a" -> 7` leaves the map empty and `get("a")` yields `None`, not
`7`.  Moreover `get` itself records `best_match = node` BEFORE descending, so
even on a correctly populated trie (hand-built third conjunct: `"a/b"` stored
with item 42 at the node chain a -> b) it selects the PARENT of the last
matched node and evaluates `self.items[None]`, raising TypeError instead of
returning 42. -/
theorem c1_radix_longest_match_broken :
    ((RadixTreeMap.empty Nat).insert "a".data 7
        = (RadixTreeMap.empty Nat, some PyError.attributeError))
    ∧ (((RadixTreeMap.empty Nat).insert "a".data 7).1.get "a".data = .ok none)
    ∧ ((RadixTreeMap.get
          ⟨[42], ["a/b".data],
            .node [] none
              [("a".data, .node "a".data none [("b".data, .node "b".data (some 0) [])])]⟩
          "a/b".data) = .error PyError.typeError) := by
  refine ⟨rfl, ?_, ?_⟩
  · exact radix_empty_get Nat "a".data
  · rfl

/-- C2: the claim says `SuffixArrayMap.get(pattern)` returns exactly the
items with an inserted suffix starting with the pattern.  The code refutes
it: inserting `"banana"` raises TypeError while sorting the second suffix
(the broken `__lt__`), and even after the one insert that does succeed
(single-character key `"a"`, recorded in `keys`), `get("a")` returns `None`
because the search bounds `high = len(index) - 1 <= low` trigger the early
return on an index of length 1. -/
theorem c2_suffix_query_broken :
    (((SuffixArrayMap.empty Nat).insert "banana".data 1).2 = some PyError.typeError)
    ∧ ((suffixRun Nat [("a".data, 1)]).keys = ["a".data])
    ∧ (SuffixArrayMap.get intItemOps (suffixRun Nat [("a".data, 1)]) "a".data = .ok none) := by
  refine ⟨?_, ?_, ?_⟩
  · exact insert_two_suffixes_err (SuffixArrayMap.empty Nat) "banana".data 1 rfl
      0 1 [2, 3, 4, 5] rfl
  · simp [suffixRun, SuffixArrayMap.insert, SuffixArrayMap.empty]
  · exact get_eq_none_of_index_len_le_one intItemOps _ "a".data
      (suffixRun_index_len_le_one Nat [("a".data, 1)])

/-- C3: the claim says re-inserting an existing key overwrites in place and
returns the previously stored item, while a fresh insertion appends and
returns none.  The code refutes it: every `RadixTreeMap.insert` raises
AttributeError before storing anything (and has no return statement at all),
so after inserting `"x/y" -> 10` and `"x/y" -> 20` the map is still the fresh
empty map and no key `"x/y"` is stored. -/
theorem c3_radix_overwrite_broken :
    ((RadixTreeMap.insert (radixRun Nat [("x/y".data, 10)]) "x/y".data 20).2
        = some PyError.attributeError)
    ∧ (radixRun Nat [("x/y".data, 10), ("x/y".data, 20)] = RadixTreeMap.empty Nat)
    ∧ ((radixRun Nat [("x/y".data, 10), ("x/y".data, 20)]).keys = []) := by
  refine ⟨rfl, radixRun_eq_empty Nat _, ?_⟩
  rw [radixRun_eq_empty]
  rfl

/-- C4: after every sequence of `SuffixArrayMap.insert` calls the internal
index is strictly sorted lexicographically by token.  This holds on the code
(degenerately): the index never holds more than one entry, because the broken
`__lt__` makes every `insort_left` into a nonempty index raise before
inserting, and a list of length at most one is strictly sorted. -/
theorem c4_index_sorted (α : Type) (hist : List (PyStr × α)) :
    (suffixRun α hist).index.Pairwise (fun a b => pyStrLt a.token b.token = true) :=
  pairwise_of_len_le_one _ (suffixRun_index_len_le_one α hist)

/-- C5: the claim says no operation raises for structurally well-formed
input.  The code refutes it: `SuffixArrayMap.insert("ab", 1)` on a fresh map
raises TypeError (broken `__lt__` during `insort_left` of the second
suffix), and `RadixTreeMap.insert("a/b", 1)` raises AttributeError
(`list.enumerate` does not exist). -/
theorem c5_insert_raises_on_wellformed_input :
    (((SuffixArrayMap.empty Nat).insert "ab".data 1).2 = some PyError.typeError)
    ∧ (((RadixTreeMap.empty Nat).insert "a/b".data 1).2 = some PyError.attributeError) :=
  ⟨insert_two_suffixes_err (SuffixArrayMap.empty Nat) "ab".data 1 rfl 0 1 [] rfl, rfl⟩

/-- C6 counterexample: the claim says `SuffixArrayMap.get` returns an EMPTY
SEQUENCE for a non-matching pattern, including on an empty index.  The code
returns Python `None` (modelled `.ok none`), which is not the empty list
(`.ok (some [])`): on the fresh index, `get("zzz")` evaluates to `.ok none`,
and `.ok none ≠ .ok (some [])`. -/
theorem c6_counterexample :
    (SuffixArrayMap.get intItemOps (SuffixArrayMap.empty Nat) "zzz".data
        = .ok (none : Option (List Nat)))
    ∧ (Except.ok (none : Option (List Nat))
        ≠ (.ok (some []) : Except PyError (Option (List Nat)))) := by
  constructor
  · exact get_eq_none_of_index_len_le_one intItemOps (SuffixArrayMap.empty Nat)
      "zzz".data (by simp [SuffixArrayMap.empty])
  · simp

/-- C6 amended: absence is indeed never reported as a fault, but it is
communicated as Python `None` by BOTH containers, not as an empty sequence:
on every reachable state, `SuffixArrayMap.get` returns `None` for every
pattern and `RadixTreeMap.get` returns `None` for every query, and neither
raises. -/
theorem c6_amended_absence_is_none (α : Type) (ops : PyItemOps α)
    (hist : List (PyStr × α)) (pat q : PyStr) :
    (SuffixArrayMap.get ops (suffixRun α hist) pat = .ok none)
    ∧ ((radixRun α hist).get q = .ok none) :=
  ⟨get_eq_none_of_index_len_le_one ops _ pat (suffixRun_index_len_le_one α hist), by
    rw [radixRun_eq_empty]
    exact radix_empty_get α q⟩

/-- C7: the claim says the suffix index is a multi-map: inserting the same
key twice yields two items both returned by `get`.  The code refutes it: the
second `insert("c", 2)` raises TypeError (its first suffix must be compared
against the node already in the index), and although both items sit in the
arena afterwards, `get("c")` returns `None`, not a sequence containing items
1 and 2. -/
theorem c7_duplicate_key_broken :
    ((SuffixArrayMap.insert (suffixRun Nat [("c".data, 1)]) "c".data 2).2
        = some PyError.typeError)
    ∧ ((suffixRun Nat [("c".data, 1), ("c".data, 2)]).items = [1, 2])
    ∧ (SuffixArrayMap.get intItemOps (suffixRun Nat [("c".data, 1), ("c".data, 2)])
        "c".data = .ok none) := by
  obtain ⟨nd, hnd⟩ := suffixRun_single_c
  refine ⟨insert_err_of_index_nonempty _ "c".data 2 nd [] hnd (by decide), ?_, ?_⟩
  · simp [suffixRun, SuffixArrayMap.insert, SuffixArrayMap.empty]
  · exact get_eq_none_of_index_len_le_one intItemOps _ "c".data
      (suffixRun_index_len_le_one Nat [("c".data, 1), ("c".data, 2)])

/-- C8: all tokens stored in the index are pairwise distinct, for every
sequence of inserts (duplicate keys and keys containing the terminator
included).  This holds on the code (degenerately): the index never holds more
than one token, because every `insort_left` into a nonempty index raises. -/
theorem c8_tokens_pairwise_distinct (α : Type) (hist : List (PyStr × α)) :
    ((suffixRun α hist).index.map SuffixArrayNode.token).Pairwise (· ≠ ·) :=
  pairwise_of_len_le_one _ (by simpa using suffixRun_index_len_le_one α hist)

/-- C9: queries never mutate and are deterministic.  In the state-passing
views of the two `get` methods (whose source bodies assign only local
variables and never write to `self`), the post state equals the pre state,
and an immediately repeated call with the same argument returns the same
result. -/
theorem c9_get_pure_deterministic (α : Type) (ops : PyItemOps α) (s : SuffixArrayMap α)
    (pat : PyStr) (t : RadixTreeMap α) (q : PyStr) :
    ((SuffixArrayMap.getS ops s pat).2 = s)
    ∧ ((SuffixArrayMap.getS ops (SuffixArrayMap.getS ops s pat).2 pat).1
        = (SuffixArrayMap.getS ops s pat).1)
    ∧ ((RadixTreeMap.getS t q).2 = t)
    ∧ ((RadixTreeMap.getS (RadixTreeMap.getS t q).2 q).1 = (RadixTreeMap.getS t q).1) :=
  ⟨rfl, rfl, rfl, rfl⟩

/-- C10 (implicit): whenever the suffix index holds at most one entry,
`SuffixArrayMap.get` returns the no-match result `None` for EVERY pattern,
even when the single stored token begins with the pattern, because
`low = 0`, `high = len(self.index) - 1` satisfy `high <= low` and the method
returns early. -/
theorem c10_small_index_always_none (α : Type) (ops : PyItemOps α)
    (s : SuffixArrayMap α) (pat : PyStr) (h : s.index.length ≤ 1) :
    SuffixArrayMap.get ops s pat = .ok none :=
  get_eq_none_of_index_len_le_one ops s pat h

/-- Witness for C10: a concrete one-entry index whose single token `"a$0"`
does start with the queried pattern `"a"`, and yet `get` returns `None`. -/
theorem c10_witness :
    (([⟨0, 0, "a$0".data⟩] : List SuffixArrayNode).length ≤ 1)
    ∧ (SuffixArrayNode.startswith ⟨0, 0, "a$0".data⟩ "a".data = true)
    ∧ (SuffixArrayMap.get intItemOps ⟨[5], ["a".data], [⟨0, 0, "a$0".data⟩]⟩ "a".data
        = .ok none) :=
  ⟨by decide, by decide,
    c10_small_index_always_none Nat intItemOps
      ⟨[5], ["a".data], [⟨0, 0, "a$0".data⟩]⟩ "a".data (by decide)⟩
